import Mathlib

/-!
Shallow embedding of `src/main.rs` of the `mc_discord_bot` repository.

The program is a chat bot with two control flows:
* `interaction_create` — the `/verify <username>` command handler: checks the
  "Verified" role, resolves the username via the Mojang API, whitelists the
  canonical name over RCON, grants the role and replies;
* `ready` — bootstrap (role / info message / slash command) followed by a
  perpetual status loop that renames a channel to a player-count label.

External collaborators (HTTP, RCON, the chat platform) are modelled as
environment fields holding each call's outcome; `.expect(msg)` panics are
modelled as `Except.error msg`; user-visible replies as `Except.ok content`.
Side effects on collaborators are recorded in explicit effect counters.
-/

/-- `MojangResponse` from `main.rs`: the untagged serde enum for the Mojang
profile endpoint, either a success object or a failure object. -/
inductive MojangResponse where
  | Success (id : String) (name : String)
  | Failure (path : String) (errorMessage : String)
deriving DecidableEq, Repr

/-- `get_mojang_profile` from `main.rs`. The transport argument models
`reqwest::get(...).await.ok()?` (outer `Option`: `none` is a network error)
and `.json::<MojangResponse>().await.ok()` (inner `Option`: `none` is an
unparseable body). Both failure modes collapse to `none`. -/
def get_mojang_profile (transport : Option (Option MojangResponse)) : Option MojangResponse :=
  match transport with
  | none => none
  | some parsed => parsed

/-- A slash-command option value (`CommandDataOptionValue`); the handler only
distinguishes the `String` case from everything else. -/
inductive CommandDataOptionValue where
  | String (s : String)
  | Other
deriving DecidableEq, Repr

/-- The slice of a cached guild the handler reads: whether a role named
"Verified" exists (`guild.role_by_name("Verified")`). -/
structure Guild where
  verifiedRoleId : Option Nat
deriving DecidableEq, Repr

/-- Outcomes of the external calls one `/verify` invocation can make.
`guild` models `command.guild_id.and_then(|id| ctx.cache.guild(id))`;
`hasRole` models `command.user.has_role(..)`; `mojangTransport` feeds
`get_mojang_profile`; `rconConnect` models `create_rcon_client` (connect and
authenticate); `rconCommand` models `run_command(..).ok()`; `memberPresent`
models `command.member.as_mut()`; `addRole` models `add_role(..)`. -/
structure VerifyEnv where
  guild : Option Guild
  hasRole : Except String Bool
  mojangTransport : Option (Option MojangResponse)
  rconConnect : Except String Unit
  rconCommand : Option String
  memberPresent : Bool
  addRole : Except String Unit
deriving Repr

/-- Collaborator call counts recorded while handling one `/verify`
invocation: Mojang API calls, RCON connection attempts, the RCON commands
issued, and `add_role` (membership mutation) attempts. -/
structure Effects where
  mojangCalls : Nat
  rconConnects : Nat
  rconCommands : List String
  roleAdds : Nat
deriving DecidableEq, Repr

/-- The all-zero effect record: no collaborator was invoked. -/
def noEffects : Effects :=
  { mojangCalls := 0, rconConnects := 0, rconCommands := [], roleAdds := 0 }

/-- The fixed reply when the command carries no guild context. -/
def noGuildMsg : String := "Commands only work in a specific server"

/-- The fixed reply when the user already holds the Verified role. -/
def alreadyVerifiedMsg : String :=
  "You have already verified a username, please contact an admin if you have verified the wrong username or need to change it."

/-- The fixed reply when the RCON connection or authentication fails. -/
def connectFailMsg : String :=
  "Could not connect to the minecraft server. Probably because it is offline right now. Try again later"

/-- The fixed reply when the RCON command returns no usable response. -/
def commandFailMsg : String :=
  "Something went wrong... The server is probably offline right now. Try again when the server is online"

/-- The success reply, naming the canonical Mojang profile name. -/
def successMsg (name : String) : String :=
  "'" ++ name ++ "' was successfully added to the whitelist!"

/-- The fixed reply when the Mojang API reports that no such user exists. -/
def notFoundMsg (username : String) : String :=
  "There isn't a Mojang user with '" ++ username ++ "' username. Please try again."

/-- The fixed reply when the Mojang API is unreachable or its body is
unparseable. -/
def transportFailMsg : String :=
  "Couldn't fetch the profile from the Mojang API. Please try again."

/-- The body of the `"verify"` arm of `interaction_create`, after the option
value has been extracted. `Except.error` is a panic (an `.expect` / `panic!`
in the source), `Except.ok` is the computed reply content. The second
component records which collaborators were invoked. -/
def verifyCommand (env : VerifyEnv) (value : CommandDataOptionValue) :
    Except String String × Effects :=
  match value with
  | .Other => (.error "It should be a String", noEffects)
  | .String username =>
    match env.guild with
    | none => (.ok noGuildMsg, noEffects)
    | some guild =>
      match guild.verifiedRoleId with
      | none => (.error "There should a Verified role", noEffects)
      | some _ =>
        match env.hasRole with
        | .error _ => (.error "Couldn't check if user has role", noEffects)
        | .ok isVerified =>
          if isVerified then
            (.ok alreadyVerifiedMsg, noEffects)
          else
            match get_mojang_profile env.mojangTransport with
            | some (.Success _ name) =>
              match env.rconConnect with
              | .error _ =>
                (.ok connectFailMsg,
                 { mojangCalls := 1, rconConnects := 1, rconCommands := [], roleAdds := 0 })
              | .ok _ =>
                match env.rconCommand with
                | some _ =>
                  if env.memberPresent then
                    match env.addRole with
                    | .error _ =>
                      (.error "Couldn't add Verified role to a user",
                       { mojangCalls := 1, rconConnects := 1,
                         rconCommands := ["whitelist add " ++ name], roleAdds := 1 })
                    | .ok _ =>
                      (.ok (successMsg name),
                       { mojangCalls := 1, rconConnects := 1,
                         rconCommands := ["whitelist add " ++ name], roleAdds := 1 })
                  else
                    (.error "There should be a user",
                     { mojangCalls := 1, rconConnects := 1,
                       rconCommands := ["whitelist add " ++ name], roleAdds := 0 })
                | none =>
                  (.ok commandFailMsg,
                   { mojangCalls := 1, rconConnects := 1,
                     rconCommands := ["whitelist add " ++ name], roleAdds := 0 })
            | some (.Failure _ _) =>
              (.ok (notFoundMsg username),
               { mojangCalls := 1, rconConnects := 0, rconCommands := [], roleAdds := 0 })
            | none =>
              (.ok transportFailMsg,
               { mojangCalls := 1, rconConnects := 0, rconCommands := [], roleAdds := 0 })

/-- `interaction_create` from `main.rs`, for a command interaction:
dispatch on the command name, extract the first option (panicking if it is
absent), run the verify flow, then send the reply via `create_response`
(whose failure also panics). `Except.ok c` means the ephemeral reply `c`
was produced. -/
def interaction_create (env : VerifyEnv) (createResponse : Except String Unit)
    (commandName : String) (options : List CommandDataOptionValue) :
    Except String String × Effects :=
  let step : Except String String × Effects :=
    if commandName = "verify" then
      match options.head? with
      | none => (.error "There wasn't an option", noEffects)
      | some value => verifyCommand env value
    else
      (.ok "Not a command", noEffects)
  match step with
  | (.error msg, eff) => (.error msg, eff)
  | (.ok content, eff) =>
    match createResponse with
    | .error _ => (.error "Couldn't respond to a slash command", eff)
    | .ok _ => (.ok content, eff)

/-! ## Status reconciliation loop -/

/-- Result of `mc_query::status`: the online player count on success, an
error message on failure. -/
inductive StatusResult where
  | ok (online : Nat)
  | err (msg : String)
deriving DecidableEq, Repr

/-- The player-count label template from `main.rs` (the literal characters
of the source file, written with escapes). -/
def playersLabel (online : Nat) : String :=
  "\u00F0\u0178\u017D\u00AE Players online: " ++ toString online ++ " \u00F0\u0178\u017D\u00AE"

/-- The fixed offline sentinel label from `main.rs`. -/
def offlineLabel : String :=
  "\u00F0\u0178\u203A\u2018 Server offline \u00F0\u0178\u203A\u2018"

/-- `new_channel_name` as computed in the loop body of `ready`. -/
def new_channel_name : StatusResult → String
  | .ok online => playersLabel online
  | .err _ => offlineLabel

/-- The loop's `status_channel`: the local clone of the cached guild channel,
of which the loop reads and writes only `name`. -/
structure StatusChannel where
  name : String
deriving DecidableEq, Repr

/-- One iteration of the status loop of `ready`: compare
`status_channel.name` against the computed label, and edit the channel only
when they differ. `edit` is the outcome of `status_channel.edit(..)`; its
failure panics (`.expect`) with the source's message. On success the tick
returns the updated channel and the number of edit requests issued (0 or 1). -/
def loop_tick (status_channel : StatusChannel) (status : StatusResult)
    (edit : Except String Unit) : Except String (StatusChannel × Nat) :=
  let newName := new_channel_name status
  let oldName := status_channel.name
  if oldName ≠ newName then
    match edit with
    | .ok _ => .ok ({ name := newName }, 1)
    | .error _ => .error "Couldn't change the name of the channel"
  else
    .ok (status_channel, 0)

/-- Several consecutive iterations of the status loop, threading the local
`status_channel` and summing the edit requests issued; a panic in any tick
terminates the loop and the remaining ticks never run. -/
def run_ticks (status_channel : StatusChannel) :
    List (StatusResult × Except String Unit) → Except String (StatusChannel × Nat)
  | [] => .ok (status_channel, 0)
  | (status, edit) :: rest =>
    match loop_tick status_channel status edit with
    | .error msg => .error msg
    | .ok (chan, edits) =>
      match run_ticks chan rest with
      | .error msg => .error msg
      | .ok (chanEnd, editsRest) => .ok (chanEnd, edits + editsRest)

/-- Modelled from the spec: the edit decision the spec describes, in which
the label compared against is "read from the external display object's
current value at the start of the iteration" — i.e. the channel's actual
current name `externalName`, which an out-of-band rename may have changed.
Used only to compare the spec's wording with `loop_tick`, which reads the
locally cached `status_channel.name` instead. -/
def specTickIssuesEdit (externalName : String) (status : StatusResult) : Bool :=
  decide (externalName ≠ new_channel_name status)

/-! ## Bootstrap (`ready`, before the loop) -/

/-- Outcomes of the external calls the bootstrap part of `ready` makes:
whether some cached guild contains the verify channel, whether a "Verified"
role exists, the `create_role` outcome, the fetched message history of the
verify channel (limit 1), the `send_message` outcome, whether the status
channel exists in the guild, and the `create_command` outcome. -/
structure BootstrapEnv where
  guildWithVerifyChannel : Bool
  hasVerifiedRole : Bool
  createRole : Except String Unit
  fetchMessages : Except String (List String)
  sendMessage : Except String Unit
  statusChannelPresent : Bool
  createCommand : Except String Unit
deriving Repr

/-- Bootstrap effect counters: roles created and instructional messages
sent. -/
structure BootstrapEffects where
  rolesCreated : Nat
  messagesSent : Nat
deriving DecidableEq, Repr

/-- The bootstrap part of `ready` in `main.rs`: find the guild holding the
verify channel (panic if absent), create the "Verified" role only if no role
of that name exists, send the instructional embed only if the channel's
message history is empty, locate the status channel (panic if absent) and
register the `verify` slash command. Every `.expect` is an `Except.error`. -/
def ready_bootstrap (env : BootstrapEnv) : Except String BootstrapEffects :=
  if !env.guildWithVerifyChannel then
    .error "There should be guild with a channel with the provided DISCORD_VERIFY_CHANNEL_ID"
  else
    let roleStep : Except String Nat :=
      if env.hasVerifiedRole then .ok 0
      else
        match env.createRole with
        | .error _ => .error "Couldn't create a role"
        | .ok _ => .ok 1
    match roleStep with
    | .error msg => .error msg
    | .ok rolesCreated =>
      match env.fetchMessages with
      | .error _ => .error "Couldn't get messages of verify channel"
      | .ok history =>
        let messageStep : Except String Nat :=
          if history.isEmpty then
            match env.sendMessage with
            | .error _ => .error "Couldn't send embed"
            | .ok _ => .ok 1
          else .ok 0
        match messageStep with
        | .error msg => .error msg
        | .ok messagesSent =>
          if !env.statusChannelPresent then
            .error "There should be channel with the provided DISCORD_STATUS_CHANNEL_ID"
          else
            match env.createCommand with
            | .error _ => .error "Couldn't create commands"
            | .ok _ => .ok { rolesCreated := rolesCreated, messagesSent := messagesSent }

/-! ## Concrete environments used by witnesses and counterexamples -/

/-- Whether the handler produced a reply (as opposed to panicking). -/
def producedReply : Except String String × Effects → Bool
  | (.ok _, _) => true
  | (.error _, _) => false

/-- A user who already holds the Verified role. -/
def envAlready : VerifyEnv :=
  { guild := some ⟨some 1⟩, hasRole := .ok true, mojangTransport := none,
    rconConnect := .ok (), rconCommand := none, memberPresent := true, addRole := .ok () }

/-- A command with no resolvable guild context. -/
def envNoGuild : VerifyEnv :=
  { guild := none, hasRole := .ok false, mojangTransport := none,
    rconConnect := .ok (), rconCommand := none, memberPresent := true, addRole := .ok () }

/-- An unverified user whose profile resolves, but the RCON connection fails. -/
def envConnectFail : VerifyEnv :=
  { guild := some ⟨some 1⟩, hasRole := .ok false,
    mojangTransport := some (some (.Success "uuid-1" "Steve")),
    rconConnect := .error "connection refused", rconCommand := none,
    memberPresent := true, addRole := .ok () }

/-- An unverified user for whom the whole grant path succeeds; note the
claimed username used with this environment differs in case from the
canonical name "Steve". -/
def envGrantOk : VerifyEnv :=
  { guild := some ⟨some 1⟩, hasRole := .ok false,
    mojangTransport := some (some (.Success "uuid-1" "Steve")),
    rconConnect := .ok (), rconCommand := some "Added Steve to the whitelist",
    memberPresent := true, addRole := .ok () }

/-- The grant succeeds but the membership-role mutation fails. -/
def envAddRoleFail : VerifyEnv :=
  { guild := some ⟨some 1⟩, hasRole := .ok false,
    mojangTransport := some (some (.Success "uuid-1" "Steve")),
    rconConnect := .ok (), rconCommand := some "Added Steve to the whitelist",
    memberPresent := true, addRole := .error "missing permissions" }

/-- The Mojang transport fails entirely (network error or unparseable body). -/
def envTransportFail : VerifyEnv :=
  { guild := some ⟨some 1⟩, hasRole := .ok false, mojangTransport := none,
    rconConnect := .ok (), rconCommand := none, memberPresent := true, addRole := .ok () }

/-- An already-initialized community: the Verified role exists and the verify
channel already holds a message. -/
def envBootDone : BootstrapEnv :=
  { guildWithVerifyChannel := true, hasVerifiedRole := true, createRole := .ok (),
    fetchMessages := .ok ["Verification Ready!"], sendMessage := .ok (),
    statusChannelPresent := true, createCommand := .ok () }

/-! ## Theorems -/

/-- C1: a `/verify` invocation by a user who already holds the Verified role
terminates with the fixed already-verified reply, and the Mojang resolver,
the RCON session and the role mutation are all un-invoked: every
collaborator call count is zero. -/
theorem verify_already_verified_no_side_effects
    (env : VerifyEnv) (username : String) (rest : List CommandDataOptionValue)
    (g : Guild) (rid : Nat) (cr : Except String Unit)
    (hg : env.guild = some g) (hrid : g.verifiedRoleId = some rid)
    (hver : env.hasRole = .ok true) (hcr : cr = .ok ()) :
    interaction_create env cr "verify" (.String username :: rest)
      = (.ok alreadyVerifiedMsg, noEffects) ∧
    (interaction_create env cr "verify" (.String username :: rest)).2.mojangCalls = 0 ∧
    (interaction_create env cr "verify" (.String username :: rest)).2.rconConnects = 0 ∧
    (interaction_create env cr "verify" (.String username :: rest)).2.roleAdds = 0 := by
  subst hcr
  simp [interaction_create, verifyCommand, hg, hrid, hver, noEffects]

/-- Witness for C1: a concrete already-verified user. -/
theorem verify_already_verified_no_side_effects_witness :
    interaction_create envAlready (.ok ()) "verify" [.String "steve"]
      = (.ok alreadyVerifiedMsg, noEffects) :=
  (verify_already_verified_no_side_effects envAlready "steve" [] ⟨some 1⟩ 1 (.ok ())
    rfl rfl rfl rfl).1

/-- C10: a `/verify` command with no resolvable guild context gets the fixed
"commands only work in a server" reply, and no collaborator is invoked. -/
theorem verify_without_guild_fixed_reply
    (env : VerifyEnv) (username : String) (rest : List CommandDataOptionValue)
    (cr : Except String Unit)
    (hg : env.guild = none) (hcr : cr = .ok ()) :
    interaction_create env cr "verify" (.String username :: rest)
      = (.ok noGuildMsg, noEffects) ∧
    (interaction_create env cr "verify" (.String username :: rest)).2.mojangCalls = 0 ∧
    (interaction_create env cr "verify" (.String username :: rest)).2.rconConnects = 0 ∧
    (interaction_create env cr "verify" (.String username :: rest)).2.roleAdds = 0 := by
  subst hcr
  simp [interaction_create, verifyCommand, hg, noEffects]

/-- Witness for C10: a concrete guild-less invocation. -/
theorem verify_without_guild_fixed_reply_witness :
    interaction_create envNoGuild (.ok ()) "verify" [.String "steve"]
      = (.ok noGuildMsg, noEffects) :=
  (verify_without_guild_fixed_reply envNoGuild "steve" [] (.ok ()) rfl rfl).1

/-- C2: when the allow-list grant fails — the RCON connection/authentication
errors, or the whitelist command returns no usable response — the user gets
one of the two fixed try-again replies and `add_role` is never called, so a
later retry is not blocked by the already-verified check. -/
theorem verify_grant_failure_preserves_retry
    (env : VerifyEnv) (username : String) (rest : List CommandDataOptionValue)
    (g : Guild) (rid : Nat) (mid name : String) (cr : Except String Unit)
    (hg : env.guild = some g) (hrid : g.verifiedRoleId = some rid)
    (hver : env.hasRole = .ok false)
    (hmj : env.mojangTransport = some (some (.Success mid name)))
    (hfail : (∃ e, env.rconConnect = .error e) ∨
      (env.rconConnect = .ok () ∧ env.rconCommand = none))
    (hcr : cr = .ok ()) :
    (interaction_create env cr "verify" (.String username :: rest)).2.roleAdds = 0 ∧
    ((interaction_create env cr "verify" (.String username :: rest)).1
        = .ok connectFailMsg ∨
      (interaction_create env cr "verify" (.String username :: rest)).1
        = .ok commandFailMsg) := by
  subst hcr
  rcases hfail with ⟨e, hconn⟩ | ⟨hconn, hcmd⟩
  · simp [interaction_create, verifyCommand, get_mojang_profile, hg, hrid, hver, hmj, hconn]
  · simp [interaction_create, verifyCommand, get_mojang_profile, hg, hrid, hver, hmj, hconn,
      hcmd]

/-- Witness for C2: a concrete failed RCON connection. -/
theorem verify_grant_failure_preserves_retry_witness :
    (interaction_create envConnectFail (.ok ()) "verify" [.String "steve"]).2.roleAdds = 0 ∧
    ((interaction_create envConnectFail (.ok ()) "verify" [.String "steve"]).1
        = .ok connectFailMsg ∨
      (interaction_create envConnectFail (.ok ()) "verify" [.String "steve"]).1
        = .ok commandFailMsg) :=
  verify_grant_failure_preserves_retry envConnectFail "steve" [] ⟨some 1⟩ 1 "uuid-1" "Steve"
    (.ok ()) rfl rfl rfl rfl (Or.inl ⟨"connection refused", rfl⟩) rfl

/-- C3 counterexample: with the whitelist command already issued, a failing
`add_role` makes the handler panic (`Couldn't add Verified role to a user`);
the invocation produces no reply at all, rather than a reply indicating the
success of the allow-list grant. -/
theorem verify_role_grant_failure_counterexample :
    interaction_create envAddRoleFail (.ok ()) "verify" [.String "steve"]
      = (.error "Couldn't add Verified role to a user",
         { mojangCalls := 1, rconConnects := 1,
           rconCommands := ["whitelist add Steve"], roleAdds := 1 }) ∧
    producedReply (interaction_create envAddRoleFail (.ok ()) "verify" [.String "steve"])
      = false :=
  ⟨rfl, rfl⟩

/-- C3 amended: when the allow-list grant succeeds but the membership-role
mutation fails, the handler panics with the fixed message (the panic is the
log; there is no retry) and the request terminates without any reply, even
though the whitelist command was already issued. -/
theorem verify_role_grant_failure_panics
    (env : VerifyEnv) (username : String) (rest : List CommandDataOptionValue)
    (g : Guild) (rid : Nat) (mid name resp e : String) (cr : Except String Unit)
    (hg : env.guild = some g) (hrid : g.verifiedRoleId = some rid)
    (hver : env.hasRole = .ok false)
    (hmj : env.mojangTransport = some (some (.Success mid name)))
    (hconn : env.rconConnect = .ok ())
    (hcmd : env.rconCommand = some resp)
    (hmem : env.memberPresent = true)
    (hadd : env.addRole = .error e) :
    interaction_create env cr "verify" (.String username :: rest)
      = (.error "Couldn't add Verified role to a user",
         { mojangCalls := 1, rconConnects := 1,
           rconCommands := ["whitelist add " ++ name], roleAdds := 1 }) := by
  simp [interaction_create, verifyCommand, get_mojang_profile, hg, hrid, hver, hmj, hconn,
    hcmd, hmem, hadd]

/-- Witness for the amended C3 at a concrete environment. -/
theorem verify_role_grant_failure_panics_witness :
    interaction_create envAddRoleFail (.ok ()) "verify" [.String "steve"]
      = (.error "Couldn't add Verified role to a user",
         { mojangCalls := 1, rconConnects := 1,
           rconCommands := ["whitelist add " ++ "Steve"], roleAdds := 1 }) :=
  verify_role_grant_failure_panics envAddRoleFail "steve" [] ⟨some 1⟩ 1 "uuid-1" "Steve"
    "Added Steve to the whitelist" "missing permissions" (.ok ())
    rfl rfl rfl rfl rfl rfl rfl rfl

/-- C4: on a resolved identity, the RCON command issued is exactly
`whitelist add <canonicalName>` built from the Mojang profile's name — the
user-supplied claimed username does not appear in it — and the success reply
names that canonical name. -/
theorem verify_whitelist_uses_canonical_name
    (env : VerifyEnv) (username : String) (rest : List CommandDataOptionValue)
    (g : Guild) (rid : Nat) (mid name resp : String) (cr : Except String Unit)
    (hg : env.guild = some g) (hrid : g.verifiedRoleId = some rid)
    (hver : env.hasRole = .ok false)
    (hmj : env.mojangTransport = some (some (.Success mid name)))
    (hconn : env.rconConnect = .ok ())
    (hcmd : env.rconCommand = some resp)
    (hmem : env.memberPresent = true)
    (hadd : env.addRole = .ok ())
    (hcr : cr = .ok ()) :
    (interaction_create env cr "verify" (.String username :: rest)).2.rconCommands
      = ["whitelist add " ++ name] ∧
    (interaction_create env cr "verify" (.String username :: rest)).1
      = .ok (successMsg name) ∧
    successMsg name = "'" ++ name ++ "' was successfully added to the whitelist!" := by
  subst hcr
  refine ⟨?_, ?_, rfl⟩ <;>
    simp [interaction_create, verifyCommand, get_mojang_profile, hg, hrid, hver, hmj,
      hconn, hcmd, hmem, hadd]

/-- Witness for C4: the user claims "sTeVe" but the canonical profile name is
"Steve"; the whitelist command and the reply use the canonical spelling. -/
theorem verify_whitelist_uses_canonical_name_witness :
    (interaction_create envGrantOk (.ok ()) "verify" [.String "sTeVe"]).2.rconCommands
      = ["whitelist add " ++ "Steve"] ∧
    (interaction_create envGrantOk (.ok ()) "verify" [.String "sTeVe"]).1
      = .ok (successMsg "Steve") ∧
    successMsg "Steve" = "'" ++ "Steve" ++ "' was successfully added to the whitelist!" :=
  verify_whitelist_uses_canonical_name envGrantOk "sTeVe" [] ⟨some 1⟩ 1 "uuid-1" "Steve"
    "Added Steve to the whitelist" (.ok ()) rfl rfl rfl rfl rfl rfl rfl rfl rfl

/-- String concatenation acts as list concatenation on the underlying
character data. -/
theorem string_data_append (a b : String) : (a ++ b).data = a.data ++ b.data := rfl

/-- The identity-not-found reply and the transport-failure reply are distinct
for every claimed username: the former starts with 'T', the latter with 'C'. -/
theorem notFound_ne_transport (u : String) : notFoundMsg u ≠ transportFailMsg := by
  intro h
  have hd : (notFoundMsg u).data = transportFailMsg.data := congrArg String.data h
  have h1 : (notFoundMsg u).data
      = 'T' :: (("here isn't a Mojang user with '".data ++ u.data)
          ++ "' username. Please try again.".data) := by
    simp [notFoundMsg, string_data_append, List.cons_append]
  have h2 : transportFailMsg.data
      = 'C' :: ("ouldn't fetch the profile from the Mojang API. Please try again." : String).data :=
    rfl
  rw [h1, h2] at hd
  injection hd with hhead _
  exact absurd hhead (by decide)

/-- C5: the resolver has exactly three outcomes — `none` (transport failure
or unparseable body, which it treats identically), a parsed `Success`, or a
parsed `Failure` — it never panics (it is a total function into `Option`),
and the workflow maps the `Failure` and `none` outcomes to two distinct fixed
replies with no RCON call and no role mutation. -/
theorem mojang_resolver_trichotomy_and_reply_mapping
    (env : VerifyEnv) (username : String) (rest : List CommandDataOptionValue)
    (g : Guild) (rid : Nat) (t : Option (Option MojangResponse)) (p m : String)
    (hg : env.guild = some g) (hrid : g.verifiedRoleId = some rid)
    (hver : env.hasRole = .ok false) :
    (get_mojang_profile t = none ∨
      (∃ i n, get_mojang_profile t = some (.Success i n)) ∨
      (∃ q s, get_mojang_profile t = some (.Failure q s))) ∧
    get_mojang_profile none = none ∧
    get_mojang_profile (some none) = none ∧
    (env.mojangTransport = none ∨ env.mojangTransport = some none →
      interaction_create env (.ok ()) "verify" (.String username :: rest)
        = (.ok transportFailMsg,
           { mojangCalls := 1, rconConnects := 0, rconCommands := [], roleAdds := 0 })) ∧
    (env.mojangTransport = some (some (.Failure p m)) →
      interaction_create env (.ok ()) "verify" (.String username :: rest)
        = (.ok (notFoundMsg username),
           { mojangCalls := 1, rconConnects := 0, rconCommands := [], roleAdds := 0 })) ∧
    notFoundMsg username ≠ transportFailMsg := by
  refine ⟨?_, rfl, rfl, ?_, ?_, notFound_ne_transport username⟩
  · match t with
    | none => exact Or.inl rfl
    | some none => exact Or.inl rfl
    | some (some (.Success i n)) => exact Or.inr (Or.inl ⟨i, n, rfl⟩)
    | some (some (.Failure q s)) => exact Or.inr (Or.inr ⟨q, s, rfl⟩)
  · rintro (hmj | hmj) <;>
      simp [interaction_create, verifyCommand, get_mojang_profile, hg, hrid, hver, hmj]
  · intro hmj
    simp [interaction_create, verifyCommand, get_mojang_profile, hg, hrid, hver, hmj]

/-- Witness for C5: a concrete transport failure gets the fixed
transport-failure reply with no RCON call and no role mutation. -/
theorem mojang_resolver_trichotomy_and_reply_mapping_witness :
    interaction_create envTransportFail (.ok ()) "verify" [.String "steve"]
      = (.ok transportFailMsg,
         { mojangCalls := 1, rconConnects := 0, rconCommands := [], roleAdds := 0 }) :=
  (mojang_resolver_trichotomy_and_reply_mapping envTransportFail "steve" [] ⟨some 1⟩ 1
      none "p" "m" rfl rfl rfl).2.2.2.1 (Or.inl rfl)

/-- C6: over two consecutive loop ticks with an unchanged status snapshot,
at most one channel-edit request is issued in total; and when the computed
label already equals the cached channel name, a tick issues no edit at all. -/
theorem status_loop_idempotent_two_ticks
    (chan : StatusChannel) (s : StatusResult) (e1 e2 : Except String Unit)
    (c : StatusChannel) (k : Nat)
    (hrun : run_ticks chan [(s, e1), (s, e2)] = .ok (c, k)) :
    k ≤ 1 ∧ (chan.name = new_channel_name s →
      k = 0 ∧ loop_tick chan s e1 = .ok (chan, 0)) := by
  by_cases hname : chan.name = new_channel_name s
  · have ht : loop_tick chan s e1 = .ok (chan, 0) := by simp [loop_tick, hname]
    have ht2 : loop_tick chan s e2 = .ok (chan, 0) := by simp [loop_tick, hname]
    have hres : run_ticks chan [(s, e1), (s, e2)] = .ok (chan, 0) := by
      simp [run_ticks, ht, ht2]
    rw [hres] at hrun
    obtain ⟨hc, hk⟩ : chan = c ∧ 0 = k := by simpa using hrun
    subst hk
    exact ⟨Nat.zero_le 1, fun _ => ⟨rfl, ht⟩⟩
  · match e1 with
    | .error msg =>
      exfalso
      simp [run_ticks, loop_tick, hname] at hrun
    | .ok u =>
      have h1 : loop_tick chan s (.ok u) = .ok ({ name := new_channel_name s }, 1) := by
        simp [loop_tick, hname]
      have h2 : loop_tick { name := new_channel_name s } s e2
          = .ok ({ name := new_channel_name s }, 0) := by
        simp [loop_tick]
      have hres : run_ticks chan [(s, .ok u), (s, e2)]
          = .ok ({ name := new_channel_name s }, 1) := by
        simp [run_ticks, h1, h2]
      rw [hres] at hrun
      obtain ⟨hc, hk⟩ : ({ name := new_channel_name s } : StatusChannel) = c ∧ 1 = k := by
        simpa using hrun
      subst hk
      exact ⟨Nat.le_refl 1, fun h => absurd h hname⟩

/-- Witness for C6: a concrete two-tick run over an unchanged failing status
snapshot issues exactly one edit in total. -/
theorem status_loop_idempotent_two_ticks_witness :
    1 ≤ 1 ∧ ((⟨"init"⟩ : StatusChannel).name = new_channel_name (.err "down") →
      1 = 0 ∧ loop_tick ⟨"init"⟩ (.err "down") (.ok ()) = .ok (⟨"init"⟩, 0)) :=
  status_loop_idempotent_two_ticks ⟨"init"⟩ (.err "down") (.ok ()) (.ok ())
    ⟨offlineLabel⟩ 1 rfl

/-- C7 counterexample: at the start of this tick the external display's
current name has been renamed out-of-band, while the loop's local copy still
holds the offline sentinel; the failing status query computes the sentinel
again, and the code issues no edit — it compares against the cached copy —
whereas the comparison the claim describes, against the external display's
current value, would issue one. The out-of-band change is not re-observed. -/
theorem status_loop_external_rename_counterexample :
    loop_tick ⟨offlineLabel⟩ (.err "timed out") (.ok ()) = .ok (⟨offlineLabel⟩, 0) ∧
    specTickIssuesEdit "renamed out of band" (.err "timed out") = true :=
  ⟨rfl, by decide⟩

/-- C7 amended: the equality comparison reads the loop's locally cached
`status_channel` (cloned once at bootstrap and updated only by the loop's own
successful edits): a tick issues no edit exactly when the cached name equals
the computed label, and the external display's current value does not enter
the decision, so an out-of-band rename is not re-observed. -/
theorem status_loop_reads_cached_label
    (chan : StatusChannel) (s : StatusResult) :
    (loop_tick chan s (.ok ()) = .ok (chan, 0) ↔ chan.name = new_channel_name s) ∧
    (chan.name ≠ new_channel_name s →
      loop_tick chan s (.ok ()) = .ok ({ name := new_channel_name s }, 1)) := by
  constructor
  · constructor
    · intro h
      by_contra hne
      have hres : loop_tick chan s (.ok ()) = .ok ({ name := new_channel_name s }, 1) := by
        simp [loop_tick, hne]
      rw [hres] at h
      simp at h
    · intro h
      simp [loop_tick, h]
  · intro hne
    simp [loop_tick, hne]

/-- Witness for the amended C7 at a concrete cached channel and snapshot. -/
theorem status_loop_reads_cached_label_witness :
    (loop_tick ⟨offlineLabel⟩ (.ok 3) (.ok ()) = .ok (⟨offlineLabel⟩, 0) ↔
      (⟨offlineLabel⟩ : StatusChannel).name = new_channel_name (.ok 3)) ∧
    ((⟨offlineLabel⟩ : StatusChannel).name ≠ new_channel_name (.ok 3) →
      loop_tick ⟨offlineLabel⟩ (.ok 3) (.ok ()) = .ok ({ name := new_channel_name (.ok 3) }, 1)) :=
  status_loop_reads_cached_label ⟨offlineLabel⟩ (.ok 3)

/-- C8 counterexample: a failing channel-edit request in the first tick makes
the whole loop run end in the panic `Couldn't change the name of the
channel`; the second tick never runs, so the loop does not continue. -/
theorem status_loop_edit_failure_counterexample :
    run_ticks ⟨offlineLabel⟩ [(.ok 5, .error "http 500"), (.ok 5, .ok ())]
      = .error "Couldn't change the name of the channel" :=
  rfl

/-- C8 amended: a failing display-mutation request panics with the fixed
message and terminates the loop (no later tick runs), whereas a failing
status query alone is not fatal: with the offline sentinel already applied
the tick completes with no edit and the loop can continue. -/
theorem status_loop_edit_failure_terminates
    (chan : StatusChannel) (s : StatusResult) (e m : String)
    (ed : Except String Unit)
    (rest : List (StatusResult × Except String Unit))
    (hdiff : chan.name ≠ new_channel_name s) :
    run_ticks chan ((s, .error e) :: rest)
      = .error "Couldn't change the name of the channel" ∧
    loop_tick ⟨offlineLabel⟩ (.err m) ed = .ok (⟨offlineLabel⟩, 0) := by
  constructor
  · simp [run_ticks, loop_tick, hdiff]
  · simp [loop_tick, new_channel_name]

/-- Witness for the amended C8 at a concrete channel, failing edit and
failing status query. -/
theorem status_loop_edit_failure_terminates_witness :
    run_ticks ⟨"init"⟩ [(.ok 2, .error "http 500")]
      = .error "Couldn't change the name of the channel" ∧
    loop_tick ⟨offlineLabel⟩ (.err "down") (.ok ()) = .ok (⟨offlineLabel⟩, 0) :=
  status_loop_edit_failure_terminates ⟨"init"⟩ (.ok 2) "http 500" "down" (.ok ()) []
    (by decide)

/-- C9: re-running bootstrap against an already-initialized community is
idempotent — when a "Verified" role already exists and the verify channel's
message history is non-empty, a successful bootstrap creates zero roles and
sends zero instructional messages. -/
theorem bootstrap_idempotent_rerun
    (env : BootstrapEnv) (eff : BootstrapEffects) (history : List String)
    (hfetch : env.fetchMessages = .ok history)
    (hrole : env.hasVerifiedRole = true)
    (hne : history ≠ [])
    (hrun : ready_bootstrap env = .ok eff) :
    eff.rolesCreated = 0 ∧ eff.messagesSent = 0 := by
  have hie : history.isEmpty = false := by
    cases history with
    | nil => exact absurd rfl hne
    | cons a t => rfl
  cases hgw : env.guildWithVerifyChannel with
  | false => simp [ready_bootstrap, hgw] at hrun
  | true =>
    cases hsp : env.statusChannelPresent with
    | false => simp [ready_bootstrap, hgw, hrole, hfetch, hie, hsp] at hrun
    | true =>
      match hcc : env.createCommand with
      | .error msg =>
        simp [ready_bootstrap, hgw, hrole, hfetch, hie, hsp, hcc] at hrun
      | .ok u =>
        obtain ⟨r, m⟩ := eff
        have hres : ready_bootstrap env = .ok { rolesCreated := 0, messagesSent := 0 } := by
          simp [ready_bootstrap, hgw, hrole, hfetch, hie, hsp, hcc]
        rw [hres] at hrun
        have h := Except.ok.inj hrun
        have h1 : (0 : Nat) = r := congrArg BootstrapEffects.rolesCreated h
        have h2 : (0 : Nat) = m := congrArg BootstrapEffects.messagesSent h
        exact ⟨h1.symm, h2.symm⟩

/-- Witness for C9: a concrete already-initialized community. -/
theorem bootstrap_idempotent_rerun_witness :
    (0 : Nat) = 0 ∧ (0 : Nat) = 0 :=
  have h : ready_bootstrap envBootDone = .ok { rolesCreated := 0, messagesSent := 0 } := rfl
  bootstrap_idempotent_rerun envBootDone { rolesCreated := 0, messagesSent := 0 }
    ["Verification Ready!"] rfl rfl (by decide) h
